import Mathlib

/-!
Verification of the Hamiltonian Generative Network core against its code:
rollout engine and persistence (src/hamiltonian_generative_network.py) and the
constrained (geco) training controller (src/train.py).  Network modules, the
integrator, the data pipeline and the torch library are external capabilities;
they are modelled as function-valued parameters.  Floating point arithmetic is
modelled as real arithmetic.
-/

noncomputable section

/-- A torch tensor, modelled by its shape, its (flattened) numeric contents and
whether it is attached to the autograd graph. -/
structure Tensor where
  shape : List Nat
  data : List Real
  grad : Bool

/-- Result of tensor.detach(): same value, removed from the autograd graph. -/
def Tensor.detach (t : Tensor) : Tensor :=
  { t with grad := false }

/-- A scalar tensor (torch zero-dimensional tensor), modelled by its real value
and whether it is attached to the autograd graph. -/
structure TVal where
  val : Real
  grad : Bool

/-- Scalar tensor detach: same value, removed from the autograd graph. -/
def TVal.detach (t : TVal) : TVal :=
  { t with grad := false }

/-- Addition of scalar tensors: the result is attached when either operand is. -/
def TVal.add (a b : TVal) : TVal :=
  { val := a.val + b.val, grad := a.grad || b.grad }

/-- Subtraction of scalar tensors: the result is attached when either operand is. -/
def TVal.sub (a b : TVal) : TVal :=
  { val := a.val - b.val, grad := a.grad || b.grad }

/-- Multiplication of a scalar tensor by a plain (graph-free) number. -/
def TVal.smul (c : Real) (a : TVal) : TVal :=
  { val := c * a.val, grad := a.grad }

/-- Python exceptions raised by the modelled code paths. -/
inductive PyErr
  | attributeError
  | typeError
  | fileNotFound
deriving DecidableEq

/-- Mean of a list of reals (torch.mean over all elements of a tensor). -/
def listMean (xs : List Real) : Real :=
  xs.sum / xs.length

/-- Modelled from the spec: utilities.hgn_result.HgnResult is not under src/.
Trajectory Record (spec sections 3 and 4.1): constructed with a declared batch
shape and a device, it accumulates the input batch, the latent sample and its
distribution parameters, the per-step phase-space states, the reconstructions
and the energies through pure set and append operations. -/
structure HgnResult where
  batch_shape : List Nat
  device : String
  input : Option Tensor := none
  z_sample : Option Tensor := none
  z_mean : Option Tensor := none
  z_logvar : Option Tensor := none
  states : List (Tensor × Tensor) := []
  reconstructions : List Tensor := []
  energies : List Tensor := []

/-- Modelled from the spec: HgnResult.set_input stores the observed rollout batch. -/
def HgnResult.set_input (r : HgnResult) (rollout : Tensor) : HgnResult :=
  { r with input := some rollout }

/-- Modelled from the spec: HgnResult.set_z stores the latent sample and,
optionally, the latent mean and log-variance. -/
def HgnResult.set_z (r : HgnResult) (zSample : Tensor)
    (zMean zLogvar : Option Tensor) : HgnResult :=
  { r with z_sample := some zSample, z_mean := zMean, z_logvar := zLogvar }

/-- Modelled from the spec: HgnResult.append_state appends one (position, momentum)
pair to the state sequence. -/
def HgnResult.append_state (r : HgnResult) (q p : Tensor) : HgnResult :=
  { r with states := r.states ++ [(q, p)] }

/-- Modelled from the spec: HgnResult.append_reconstruction appends one decoded
frame to the reconstruction sequence. -/
def HgnResult.append_reconstruction (r : HgnResult) (x : Tensor) : HgnResult :=
  { r with reconstructions := r.reconstructions ++ [x] }

/-- Modelled from the spec: HgnResult.append_energy appends one energy value. -/
def HgnResult.append_energy (r : HgnResult) (e : Tensor) : HgnResult :=
  { r with energies := r.energies ++ [e] }

/-- Modelled from the spec: the stacked reconstruction sequence exposed by the
record as one tensor (read by the training controller as target of the
reconstruction losses). -/
def HgnResult.reconstructed_rollout (r : HgnResult) : Tensor :=
  { shape := r.batch_shape,
    data := (r.reconstructions.map Tensor.data).flatten,
    grad := (r.reconstructions.map Tensor.grad).any (fun b => b) }

/-- The encoder capability: a network mapping frames (and a sampling flag) to a
latent sample with optional mean and log-variance, together with the
out_channels of its out_mean head (read by HGN.get_random_sample). -/
structure Encoder where
  toFun : Tensor → Bool → Tensor × Option Tensor × Option Tensor
  out_mean_out_channels : Nat

/-- The HGN model (src/hamiltonian_generative_network.py, class HGN): parameters
seq_len, channels, device, and the module slots.  The network modules, the
integrator and the channel concatenation (utilities.conversions.concat_rgb) are
external capabilities, modelled as function fields.  The integrator step is
modelled as returning, besides the next state, the energy it exposes through
its energy attribute after the step. -/
structure HGN where
  seq_len : Nat
  channels : Nat
  device : String
  encoder : Encoder
  transformer : Tensor → Tensor × Tensor
  hnn : Tensor → Tensor → Tensor
  decoder : Tensor → Tensor
  integrator_step : Tensor → Tensor → (Tensor → Tensor → Tensor) → Tensor × Tensor × Tensor
  concat_rgb : Tensor → Tensor

/-- The estimation loop of HGN.forward (lines 104-112): for each of the
remaining steps, one integrator step, append_state, append_energy with the
integrator energy of the step just taken, then decode and
append_reconstruction. -/
def forwardLoop (h : HGN) : Nat → Tensor → Tensor → HgnResult → Tensor × Tensor × HgnResult
  | 0, q, p, pred => (q, p, pred)
  | Nat.succ k, q, p, pred =>
    let s := h.integrator_step q p h.hnn
    let pred2 := ((pred.append_state s.1 s.2.1).append_energy s.2.2).append_reconstruction
      (h.decoder s.1)
    forwardLoop h k s.1 s.2.1 pred2

/-- HGN.forward (src/hamiltonian_generative_network.py lines 65-117): the
reconstruction-mode rollout.  n_steps defaults to seq_len when absent; the
prediction record is created with the input batch shape whose index 1 is
replaced by n_steps; after encoding, transforming and decoding the initial
state, the loop runs n_steps - 1 times and a final energy is appended by
evaluating the Hamiltonian network directly on the last state, detached from
the gradient graph (the .detach().numpy() of line 115). -/
def HGN.forward (h : HGN) (rollout_batch : Tensor) (n_steps : Option Nat := none)
    (variational : Bool := true) : HgnResult :=
  let n := n_steps.getD h.seq_len
  let prediction_shape := rollout_batch.shape.set 1 n
  let prediction : HgnResult := { batch_shape := prediction_shape, device := h.device }
  let prediction := prediction.set_input rollout_batch
  let rollout_batch := h.concat_rgb rollout_batch
  let zs := h.encoder.toFun rollout_batch variational
  let prediction := prediction.set_z zs.1 zs.2.1 zs.2.2
  let qp := h.transformer zs.1
  let prediction := prediction.append_state qp.1 qp.2
  let prediction := prediction.append_reconstruction (h.decoder qp.1)
  let res := forwardLoop h (n - 1) qp.1 qp.2 prediction
  let last_energy := (h.hnn res.1 res.2.1).detach
  res.2.2.append_energy last_energy

/-- The estimation loop of HGN.get_random_sample (lines 243-250): for each of
the remaining steps, one integrator step, append_state, then decode and
append_reconstruction; no energy is appended. -/
def sampleLoop (h : HGN) : Nat → Tensor → Tensor → HgnResult → Tensor × Tensor × HgnResult
  | 0, q, p, pred => (q, p, pred)
  | Nat.succ k, q, p, pred =>
    let s := h.integrator_step q p h.hnn
    let pred2 := (pred.append_state s.1 s.2.1).append_reconstruction (h.decoder s.1)
    sampleLoop h k s.1 s.2.1 pred2

/-- HGN.get_random_sample (src/hamiltonian_generative_network.py lines 209-251):
the generative-mode rollout.  The latent representation is drawn by torch.randn
(modelled as the sampler argument randn, an external randomness source) at
shape (1, encoder.out_mean.out_channels, img_shape[0], img_shape[1]); the
prediction record is created with batch shape
(1, n_steps, channels, img_shape[0], img_shape[1]); set_z stores only the
latent sample; then the same state evolution as forward, but without any
append_energy. -/
def HGN.get_random_sample (h : HGN) (randn : List Nat → Tensor) (n_steps : Nat)
    (img_shape : Nat × Nat := (32, 32)) : HgnResult :=
  let latent_shape := [1, h.encoder.out_mean_out_channels, img_shape.1, img_shape.2]
  let latent_representation := randn latent_shape
  let prediction_shape := [1, n_steps, h.channels, img_shape.1, img_shape.2]
  let prediction : HgnResult := { batch_shape := prediction_shape, device := h.device }
  let prediction := prediction.set_z latent_representation none none
  let qp := h.transformer latent_representation
  let prediction := prediction.append_state qp.1 qp.2
  let prediction := prediction.append_reconstruction (h.decoder qp.1)
  let res := sampleLoop h (n_steps - 1) qp.1 qp.2 prediction
  res.2.2

/-- Modelled from the spec: the contents of a model directory under the four
fixed filenames encoder.pt, transformer.pt, hamiltonian.pt and decoder.pt
(the ENCODER_FILENAME, TRANSFORMER_FILENAME, HAMILTONIAN_FILENAME and
DECODER_FILENAME constants); torch.save and torch.load, an external library,
are modelled as writing and reading typed module values, and the map_location
device remapping of torch.load does not change the stored value. -/
structure ModelDir where
  encoder_pt : Option Encoder := none
  transformer_pt : Option (Tensor → Tensor × Tensor) := none
  hamiltonian_pt : Option (Tensor → Tensor → Tensor) := none
  decoder_pt : Option (Tensor → Tensor) := none

/-- Modelled from the spec: the file system seen by Model Persistence, mapping a
directory path to its contents, none when the directory does not exist. -/
def FileSystem : Type :=
  String → Option ModelDir

/-- HGN.load (src/hamiltonian_generative_network.py lines 167-184): the four
module slots are assigned sequentially from the four files of the directory;
torch.load raises a missing-file error when the file is absent, which aborts
the remaining assignments; the returned pair is the model as mutated so far and
the raised error, if any. -/
def HGN.load (h : HGN) (fs : FileSystem) (directory : String) : HGN × Option PyErr :=
  match (fs directory).bind ModelDir.encoder_pt with
  | none => (h, some PyErr.fileNotFound)
  | some enc =>
    let h1 := { h with encoder := enc }
    match (fs directory).bind ModelDir.transformer_pt with
    | none => (h1, some PyErr.fileNotFound)
    | some tra =>
      let h2 := { h1 with transformer := tra }
      match (fs directory).bind ModelDir.hamiltonian_pt with
      | none => (h2, some PyErr.fileNotFound)
      | some ham =>
        let h3 := { h2 with hnn := ham }
        match (fs directory).bind ModelDir.decoder_pt with
        | none => (h3, some PyErr.fileNotFound)
        | some dec =>
          ({ h3 with decoder := dec }, none)

/-- HGN.save (src/hamiltonian_generative_network.py lines 186-200): the
directory is created if missing and the four module slots are serialized under
the four fixed filenames, overwriting previous contents. -/
def HGN.save (h : HGN) (fs : FileSystem) (directory : String) : FileSystem :=
  fun d =>
    if d = directory then
      some { encoder_pt := some h.encoder, transformer_pt := some h.transformer,
             hamiltonian_pt := some h.hnn, decoder_pt := some h.decoder }
    else fs d

/-- The value of the KL divergence formula of spec section 4.3b,
KLD = -0.5 * mean(1 + logvar - mean^2 - exp(logvar)), computed elementwise
over the latent mean and log-variance tensors. -/
def kldVal (mu logvar : Tensor) : Real :=
  -(0.5) * listMean (List.zipWith (fun m l => 1 + l - m ^ 2 - Real.exp l) mu.data logvar.data)

/-- Modelled from the spec: utilities.losses.kld_loss is not under src/.
Spec section 4.3b gives KLD = -0.5 * mean(1 + logvar - mean^2 - exp(logvar)),
the same formula that appears in src at HGN.fit line 152.  The trainer applies
it to the optional z_mean and z_logvar of the record; an absent argument is a
type error in Python. -/
def kld_loss : Option Tensor → Option Tensor → Except PyErr TVal
  | some mu, some logvar =>
    Except.ok { val := kldVal mu logvar, grad := mu.grad || logvar.grad }
  | _, _ => Except.error PyErr.typeError

/-- torch.clamp on a scalar (train.py lines 143-145): the value clamped to the
closed interval between lo and hi. -/
def torchClamp (x lo hi : Real) : Real :=
  min (max x lo) hi

/-- The geco parameters of the experiment configuration
(params["geco"] in train.py): tolerance, moving-average decay rate alpha, and
the multiplier rate constant langrange_multiplier_param. -/
structure GecoParams where
  tol : Real
  alpha : Real
  langrange_multiplier_param : Real

/-- The trainer (train.py, class HgnTrainer): the variational flag
params["networks"]["variational"], the geco parameters, the HGN model, and the
externally defined loss capabilities from utilities.losses (not under src/):
geco_constraint, returning the constraint value C and the reconstruction loss
from the target, the prediction and the tolerance, and reconstruction_loss.
The target argument has the optional type of the input attribute of the record
(Python passes the attribute value as is). -/
structure HgnTrainer where
  variational : Bool
  geco : GecoParams
  hgn : HGN
  geco_constraint : Option Tensor → Tensor → Real → TVal × TVal
  reconstruction_loss : Option Tensor → Tensor → TVal

/-- The geco state held on the trainer across batches: the Lagrange multiplier
self.langrange_multiplier and the moving average self.C_ma of the constraint
(None before the first batch). -/
structure TrainerState where
  langrange_multiplier : Real
  C_ma : Option TVal

/-- The losses dictionary returned by training_step in variational mode
(train.py lines 134-140): training loss, KL divergence, current constraint
value (a plain number via item()), moving average, reconstruction loss, and
the multiplier used for this batch. -/
structure Losses where
  train : TVal
  kld : TVal
  C_cur : Real
  C_ma : TVal
  rec_loss : TVal
  langrange_mult : Real

/-- HgnTrainer.training_step (train.py lines 97-152).  The forward pass runs
with the default arguments n_steps=None, variational=True of HGN.forward.
In variational mode: geco_constraint gives C and the reconstruction loss,
kld_loss the KL divergence; the moving average is set to C on the first batch
and to alpha * C_ma.detach() + (1 - alpha) * C afterwards; the constraint is
recentered as C + (C_ma - C); the training loss is kld plus the current
multiplier times the recentered constraint; the losses are recorded and then
the multiplier is updated to
clamp(multiplier * exp(langrange_multiplier_param * C_ma.detach()), 1e-10, 1e10).
In non-variational mode (lines 146-150) the code evaluates prediction.input
where prediction is the tensor hgn_output.reconstructed_rollout (line 111); a
torch tensor has no attribute named input, so an AttributeError is raised
before reconstruction_loss is ever entered. -/
def training_step (tr : HgnTrainer) (st : TrainerState) (rollouts : Tensor) :
    Except PyErr (TrainerState × Losses) :=
  let hgn_output := tr.hgn.forward rollouts
  let target := hgn_output.input
  let prediction := hgn_output.reconstructed_rollout
  if tr.variational then
    let Crec := tr.geco_constraint target prediction tr.geco.tol
    let C := Crec.1
    let rec_loss := Crec.2
    let C_curr := C.val
    match kld_loss hgn_output.z_mean hgn_output.z_logvar with
    | Except.error e => Except.error e
    | Except.ok kld =>
      let C_ma2 :=
        match st.C_ma with
        | none => C
        | some ma =>
          TVal.add (TVal.smul tr.geco.alpha (TVal.detach ma))
            (TVal.smul (1 - tr.geco.alpha) C)
      let C2 := TVal.add C (TVal.sub C_ma2 C)
      let train_loss := TVal.add kld (TVal.smul st.langrange_multiplier C2)
      let losses : Losses :=
        { train := train_loss, kld := kld, C_cur := C_curr, C_ma := C_ma2,
          rec_loss := rec_loss, langrange_mult := st.langrange_multiplier }
      let new_mult := torchClamp
        (st.langrange_multiplier *
          Real.exp (tr.geco.langrange_multiplier_param * (TVal.detach C_ma2).val))
        (1e-10) (1e10)
      Except.ok ({ langrange_multiplier := new_mult, C_ma := some C_ma2 }, losses)
  else
    Except.error PyErr.attributeError

/-- The geco state initialization of HgnTrainer.fit (train.py lines 159-162),
performed when the run is variational: multiplier one, moving average unset. -/
def fitInit : TrainerState :=
  { langrange_multiplier := 1, C_ma := none }

/-- The cross-batch geco state evolution of HgnTrainer.fit (train.py lines
164-190): one training_step per batch, the epoch loops flattened into a single
stream of batches; an exception raised by a step aborts the run. -/
def fitRun (tr : HgnTrainer) (batches : List Tensor) : Except PyErr TrainerState :=
  batches.foldlM (fun st b => Except.map Prod.fst (training_step tr st b)) fitInit

/-- The constraint value C that a variational training_step obtains from
geco_constraint on the given batch (train.py line 114), written out for use in
theorem statements. -/
def cOf (tr : HgnTrainer) (rollouts : Tensor) : TVal :=
  (tr.geco_constraint (tr.hgn.forward rollouts).input
    (tr.hgn.forward rollouts).reconstructed_rollout tr.geco.tol).1

/-- The moving average stored by a variational training_step (train.py lines
121-127), written out for use in theorem statements: the live C itself on the
first batch, the blend of the detached previous average with the live C
afterwards. -/
def cMaNext (tr : HgnTrainer) (st : TrainerState) (rollouts : Tensor) : TVal :=
  match st.C_ma with
  | none => cOf tr rollouts
  | some ma =>
    TVal.add (TVal.smul tr.geco.alpha (TVal.detach ma))
      (TVal.smul (1 - tr.geco.alpha) (cOf tr rollouts))

/-- A zero-size tensor used by the concrete model instances below. -/
def tZero : Tensor :=
  { shape := [], data := [], grad := false }

/-- A concrete HGN instance with simple concrete module capabilities, used to
instantiate the general theorems. -/
def hgnC : HGN :=
  { seq_len := 2
    channels := 3
    device := "cpu"
    encoder := { toFun := fun t _ => (t, some t, some t), out_mean_out_channels := 4 }
    transformer := fun t => (t, t)
    hnn := fun _ _ => tZero
    decoder := fun t => t
    integrator_step := fun q p _ => (q, p, tZero)
    concat_rgb := fun t => t }

/-- A concrete sampler standing in for torch.randn. -/
def randnC : List Nat → Tensor :=
  fun s => { shape := s, data := [], grad := false }

/-- A concrete rollout batch of shape (batch, seq, channels, height, width). -/
def rbC : Tensor :=
  { shape := [4, 2, 3, 32, 32], data := [], grad := false }

/-- A concrete variational trainer.  Its geco_constraint returns a constraint
value that is attached to the gradient graph, as the live constraint of the
geco scheme is. -/
def trC : HgnTrainer :=
  { variational := true
    geco := { tol := 0.01, alpha := 0.99, langrange_multiplier_param := 0.1 }
    hgn := hgnC
    geco_constraint := fun _ _ _ => ({ val := 2, grad := true }, { val := 2, grad := true })
    reconstruction_loss := fun _ _ => { val := 2, grad := true } }

/-- The concrete trainer switched to deterministic (non-variational) mode. -/
def trD : HgnTrainer :=
  { trC with variational := false }

/-- A concrete encoder used as the pre-call slot value of the load scenarios. -/
def encOld : Encoder :=
  { toFun := fun t _ => (t, none, none), out_mean_out_channels := 4 }

/-- A concrete encoder, distinguishable from encOld, stored in the directory of
the load scenarios. -/
def encNew : Encoder :=
  { toFun := fun t _ => (t, some t, none), out_mean_out_channels := 7 }

/-- The concrete HGN whose load is examined: its encoder slot is encOld. -/
def hgn0 : HGN :=
  { hgnC with encoder := encOld }

/-- A concrete directory name. -/
def dirC : String :=
  "saved_models/exp"

/-- A concrete file system: every directory holds encoder.pt but is missing
transformer.pt, hamiltonian.pt and decoder.pt. -/
def fsC : FileSystem :=
  fun _ => some { encoder_pt := some encNew }

theorem forwardLoop_len (h : HGN) (k : Nat) :
    ∀ (q p : Tensor) (r : HgnResult),
      (forwardLoop h k q p r).2.2.states.length = r.states.length + k ∧
      (forwardLoop h k q p r).2.2.reconstructions.length = r.reconstructions.length + k ∧
      (forwardLoop h k q p r).2.2.energies.length = r.energies.length + k := by
  induction k with
  | zero => intro q p r; simp [forwardLoop]
  | succ n ih =>
    intro q p r
    simp only [forwardLoop]
    refine ⟨?_, ?_, ?_⟩
    · rw [(ih _ _ _).1]
      simp [HgnResult.append_state, HgnResult.append_energy, HgnResult.append_reconstruction]
      omega
    · rw [(ih _ _ _).2.1]
      simp [HgnResult.append_state, HgnResult.append_energy, HgnResult.append_reconstruction]
      omega
    · rw [(ih _ _ _).2.2]
      simp [HgnResult.append_state, HgnResult.append_energy, HgnResult.append_reconstruction]
      omega

theorem sampleLoop_len (h : HGN) (k : Nat) :
    ∀ (q p : Tensor) (r : HgnResult),
      (sampleLoop h k q p r).2.2.states.length = r.states.length + k ∧
      (sampleLoop h k q p r).2.2.reconstructions.length = r.reconstructions.length + k ∧
      (sampleLoop h k q p r).2.2.energies = r.energies := by
  induction k with
  | zero => intro q p r; simp [sampleLoop]
  | succ n ih =>
    intro q p r
    simp only [sampleLoop]
    refine ⟨?_, ?_, ?_⟩
    · rw [(ih _ _ _).1]
      simp [HgnResult.append_state, HgnResult.append_reconstruction]
      omega
    · rw [(ih _ _ _).2.1]
      simp [HgnResult.append_state, HgnResult.append_reconstruction]
      omega
    · rw [(ih _ _ _).2.2]
      simp [HgnResult.append_state, HgnResult.append_reconstruction]

theorem sampleLoop_fields (h : HGN) (k : Nat) :
    ∀ (q p : Tensor) (r : HgnResult),
      (sampleLoop h k q p r).2.2.z_sample = r.z_sample ∧
      (sampleLoop h k q p r).2.2.batch_shape = r.batch_shape := by
  induction k with
  | zero => intro q p r; simp [sampleLoop]
  | succ n ih =>
    intro q p r
    simp only [sampleLoop]
    refine ⟨?_, ?_⟩
    · rw [(ih _ _ _).1]
      simp [HgnResult.append_state, HgnResult.append_reconstruction]
    · rw [(ih _ _ _).2]
      simp [HgnResult.append_state, HgnResult.append_reconstruction]

theorem training_step_ok (tr : HgnTrainer) (st : TrainerState) (rollouts : Tensor)
    (st2 : TrainerState) (ls : Losses)
    (hstep : training_step tr st rollouts = Except.ok (st2, ls)) :
    tr.variational = true ∧
    ∃ kld, kld_loss (tr.hgn.forward rollouts).z_mean (tr.hgn.forward rollouts).z_logvar
        = Except.ok kld ∧
      ls.kld = kld ∧
      st2.C_ma = some (cMaNext tr st rollouts) ∧
      st2.langrange_multiplier = torchClamp
        (st.langrange_multiplier *
          Real.exp (tr.geco.langrange_multiplier_param *
            (TVal.detach (cMaNext tr st rollouts)).val)) (1e-10) (1e10) ∧
      ls.train = TVal.add kld (TVal.smul st.langrange_multiplier
        (TVal.add (cOf tr rollouts)
          (TVal.sub (cMaNext tr st rollouts) (cOf tr rollouts)))) := by
  by_cases hv : tr.variational = true
  · refine ⟨hv, ?_⟩
    rcases hk : kld_loss (tr.hgn.forward rollouts).z_mean (tr.hgn.forward rollouts).z_logvar
      with e | kld
    · simp [training_step, hv, hk] at hstep
    · refine ⟨kld, rfl, ?_⟩
      cases hma : st.C_ma with
      | none =>
        simp [training_step, hv, hk, hma, Prod.ext_iff] at hstep
        rcases hstep with ⟨hst, hls⟩
        rw [← hst, ← hls]
        simp [cMaNext, cOf, hma]
      | some ma =>
        simp [training_step, hv, hk, hma, Prod.ext_iff] at hstep
        rcases hstep with ⟨hst, hls⟩
        rw [← hst, ← hls]
        simp [cMaNext, cOf, hma]
  · simp only [Bool.not_eq_true] at hv
    simp [training_step, hv] at hstep

theorem torchClamp_bounds (x lo hi : Real) (hlohi : lo ≤ hi) :
    lo ≤ torchClamp x lo hi ∧ torchClamp x lo hi ≤ hi :=
  ⟨le_min (le_max_right x lo) hlohi, min_le_right _ _⟩

theorem fitFold_bounds (tr : HgnTrainer) (batches : List Tensor) :
    ∀ (st0 : TrainerState), 1e-10 ≤ st0.langrange_multiplier →
      st0.langrange_multiplier ≤ 1e10 →
    ∀ st2, List.foldlM (fun st b => Except.map Prod.fst (training_step tr st b)) st0 batches
        = Except.ok st2 →
      1e-10 ≤ st2.langrange_multiplier ∧ st2.langrange_multiplier ≤ 1e10 := by
  induction batches with
  | nil =>
    intro st0 hlo hhi st2 hfold
    simp only [List.foldlM_nil] at hfold
    cases hfold
    exact ⟨hlo, hhi⟩
  | cons b bs ih =>
    intro st0 hlo hhi st2 hfold
    rw [List.foldlM_cons] at hfold
    rcases hstep : training_step tr st0 b with e | ⟨st1, ls⟩
    · rw [hstep] at hfold
      exact Except.noConfusion hfold
    · rw [hstep] at hfold
      have hfold2 : List.foldlM (fun st b => Except.map Prod.fst (training_step tr st b)) st1 bs
          = Except.ok st2 := hfold
      rcases training_step_ok tr st0 b st1 ls hstep with ⟨-, kld, -, -, -, hmult, -⟩
      have hb := torchClamp_bounds
        (st0.langrange_multiplier *
          Real.exp (tr.geco.langrange_multiplier_param *
            (TVal.detach (cMaNext tr st0 b)).val)) (1e-10) (1e10) (by norm_num)
      exact ih st1 (hmult ▸ hb.1) (hmult ▸ hb.2) st2 hfold2

/-- C1, counterexample: the claim asserts len(energies) equals the requested
step count in generative mode as well, but HGN.get_random_sample never appends
an energy, so a generative rollout with step count 2 has an energies sequence
whose length is 0, not 2. -/
theorem claim1_generative_energies_cex :
    (HGN.get_random_sample hgnC randnC 2 (32, 32)).energies.length ≠ 2 := by
  have h : (HGN.get_random_sample hgnC randnC 2 (32, 32)).energies.length = 0 := rfl
  rw [h]
  decide

/-- C1, amended: for any requested step count n with n >= 1, a
reconstruction-mode rollout (HGN.forward, with n either given or defaulted to
seq_len) yields len(states) = len(reconstructions) = len(energies) = n, while
a generative-mode rollout (HGN.get_random_sample) yields
len(states) = len(reconstructions) = n with an empty energies sequence. -/
theorem claim1_rollout_lengths (h : HGN) (rb : Tensor) (nopt : Option Nat) (v : Bool)
    (randn : List Nat → Tensor) (m : Nat) (img : Nat × Nat)
    (hn : 1 ≤ nopt.getD h.seq_len) (hm : 1 ≤ m) :
    ((h.forward rb nopt v).states.length = nopt.getD h.seq_len ∧
      (h.forward rb nopt v).reconstructions.length = nopt.getD h.seq_len ∧
      (h.forward rb nopt v).energies.length = nopt.getD h.seq_len) ∧
    ((h.get_random_sample randn m img).states.length = m ∧
      (h.get_random_sample randn m img).reconstructions.length = m ∧
      (h.get_random_sample randn m img).energies = []) := by
  refine ⟨⟨?_, ?_, ?_⟩, ?_, ?_, ?_⟩
  · simp only [HGN.forward, HgnResult.append_energy, HgnResult.append_state,
      HgnResult.append_reconstruction, HgnResult.set_input, HgnResult.set_z]
    rw [(forwardLoop_len h (nopt.getD h.seq_len - 1) _ _ _).1]
    simp
    omega
  · simp only [HGN.forward, HgnResult.append_energy, HgnResult.append_state,
      HgnResult.append_reconstruction, HgnResult.set_input, HgnResult.set_z]
    rw [(forwardLoop_len h (nopt.getD h.seq_len - 1) _ _ _).2.1]
    simp
    omega
  · simp only [HGN.forward, HgnResult.append_energy, HgnResult.append_state,
      HgnResult.append_reconstruction, HgnResult.set_input, HgnResult.set_z]
    rw [List.length_append, (forwardLoop_len h (nopt.getD h.seq_len - 1) _ _ _).2.2]
    simp
    omega
  · simp only [HGN.get_random_sample, HgnResult.append_state,
      HgnResult.append_reconstruction, HgnResult.set_z]
    rw [(sampleLoop_len h (m - 1) _ _ _).1]
    simp
    omega
  · simp only [HGN.get_random_sample, HgnResult.append_state,
      HgnResult.append_reconstruction, HgnResult.set_z]
    rw [(sampleLoop_len h (m - 1) _ _ _).2.1]
    simp
    omega
  · simp only [HGN.get_random_sample, HgnResult.append_state,
      HgnResult.append_reconstruction, HgnResult.set_z]
    rw [(sampleLoop_len h (m - 1) _ _ _).2.2]

/-- C1, witness: the amended statement instantiated at a concrete model, a
concrete batch and step count 2 for both modes. -/
theorem claim1_rollout_lengths_witness :
    (1 ≤ (some 2).getD hgnC.seq_len ∧ 1 ≤ 2) ∧
    (hgnC.forward rbC (some 2) true).energies.length = (some 2).getD hgnC.seq_len ∧
    (hgnC.get_random_sample randnC 2 (32, 32)).energies = [] :=
  ⟨⟨by decide, by decide⟩,
    (claim1_rollout_lengths hgnC rbC (some 2) true randnC 2 (32, 32)
      (by decide) (by decide)).1.2.2,
    (claim1_rollout_lengths hgnC rbC (some 2) true randnC 2 (32, 32)
      (by decide) (by decide)).2.2.2⟩

/-- C2: at the start of a variational run the multiplier is 1 and the moving
average is unset; after every successful training batch the multiplier equals
clamp(multiplier * exp(kappa * detached moving average), 1e-10, 1e10) where the
moving average is the one stored by that batch; hence over any sequence of
batches the multiplier never leaves the interval from 1e-10 to 1e10. -/
theorem claim2_multiplier_bounds (tr : HgnTrainer) :
    (fitInit.langrange_multiplier = 1 ∧ fitInit.C_ma = none) ∧
    (∀ st b st2 ls, training_step tr st b = Except.ok (st2, ls) →
      ∃ ma, st2.C_ma = some ma ∧
        st2.langrange_multiplier = torchClamp
          (st.langrange_multiplier *
            Real.exp (tr.geco.langrange_multiplier_param * (TVal.detach ma).val))
          (1e-10) (1e10)) ∧
    (∀ batches st2, fitRun tr batches = Except.ok st2 →
      1e-10 ≤ st2.langrange_multiplier ∧ st2.langrange_multiplier ≤ 1e10) := by
  refine ⟨⟨rfl, rfl⟩, ?_, ?_⟩
  · intro st b st2 ls hstep
    rcases training_step_ok tr st b st2 ls hstep with ⟨-, kld, -, -, hma, hmult, -⟩
    exact ⟨cMaNext tr st b, hma, hmult⟩
  · intro batches st2 hrun
    exact fitFold_bounds tr batches fitInit (by norm_num [fitInit]) (by norm_num [fitInit])
      st2 hrun

/-- C2, witness: the statement instantiated at a concrete trainer, with a
concrete successful step and a concrete run. -/
theorem claim2_multiplier_bounds_witness :
    (∃ r, training_step trC fitInit rbC = Except.ok r) ∧
    fitRun trC [] = Except.ok fitInit ∧
    (1e-10 ≤ fitInit.langrange_multiplier ∧ fitInit.langrange_multiplier ≤ 1e10) :=
  ⟨⟨_, rfl⟩, rfl, (claim2_multiplier_bounds trC).2.2 [] fitInit rfl⟩

/-- C3, counterexample: on the first variational batch the moving average is
stored as the live constraint C without any detach (train.py line 123), so it
stays attached to the gradient graph, contradicting the claim that the stored
value is detached. -/
theorem claim3_first_ma_not_detached_cex :
    Except.map (fun r => Option.map TVal.grad (Prod.fst r).C_ma)
        (training_step trC fitInit rbC)
      ≠ Except.ok (some false) := by
  have h : Except.map (fun r => Option.map TVal.grad (Prod.fst r).C_ma)
      (training_step trC fitInit rbC) = Except.ok (some true) := rfl
  rw [h]
  simp

/-- C3, amended: on the first variational batch the moving average is stored as
exactly that batch's live constraint C, with no blending but also with no
detach, so it keeps the gradient attachment of C; on every later batch it is
stored as alpha * detach(movingAverage) + (1 - alpha) * C, whose value is
alpha * movingAverage + (1 - alpha) * C. -/
theorem claim3_moving_average_update (tr : HgnTrainer) (st : TrainerState)
    (rollouts : Tensor) (st2 : TrainerState) (ls : Losses)
    (hstep : training_step tr st rollouts = Except.ok (st2, ls)) :
    (st.C_ma = none → st2.C_ma = some (cOf tr rollouts)) ∧
    (∀ ma, st.C_ma = some ma →
      st2.C_ma = some (TVal.add (TVal.smul tr.geco.alpha (TVal.detach ma))
        (TVal.smul (1 - tr.geco.alpha) (cOf tr rollouts))) ∧
      (TVal.add (TVal.smul tr.geco.alpha (TVal.detach ma))
        (TVal.smul (1 - tr.geco.alpha) (cOf tr rollouts))).val
        = tr.geco.alpha * ma.val + (1 - tr.geco.alpha) * (cOf tr rollouts).val) := by
  rcases training_step_ok tr st rollouts st2 ls hstep with ⟨-, kld, -, -, hma, -, -⟩
  constructor
  · intro h0
    rw [hma]
    simp [cMaNext, h0]
  · intro ma h0
    rw [hma]
    simp [cMaNext, h0, TVal.add, TVal.smul, TVal.detach]

/-- C3, witness: the amended statement instantiated at a concrete trainer on
its first batch. -/
theorem claim3_moving_average_update_witness :
    ∃ st2 ls, training_step trC fitInit rbC = Except.ok (st2, ls) ∧
      fitInit.C_ma = none ∧ st2.C_ma = some (cOf trC rbC) := by
  refine ⟨_, _, rfl, rfl, ?_⟩
  exact (claim3_moving_average_update trC fitInit rbC _ _ rfl).1 rfl

/-- C4: in variational mode the training loss of a batch equals
KLD + multiplier * (C + (movingAverage - C)) with the multiplier read before
its update and the moving average the one stored by this batch, and the KLD is
the formula -0.5 * mean(1 + logvar - mean^2 - exp(logvar)) applied to the
latent mean and log-variance of the forward pass. -/
theorem claim4_variational_loss (tr : HgnTrainer) (st : TrainerState) (rollouts : Tensor)
    (st2 : TrainerState) (ls : Losses) (mu lv : Tensor)
    (hstep : training_step tr st rollouts = Except.ok (st2, ls))
    (hmu : (tr.hgn.forward rollouts).z_mean = some mu)
    (hlv : (tr.hgn.forward rollouts).z_logvar = some lv) :
    ∃ ma, st2.C_ma = some ma ∧
      ls.train.val = kldVal mu lv
        + st.langrange_multiplier
          * ((cOf tr rollouts).val + (ma.val - (cOf tr rollouts).val)) ∧
      kldVal mu lv
        = -(0.5) * listMean (List.zipWith (fun m l => 1 + l - m ^ 2 - Real.exp l)
            mu.data lv.data) := by
  rcases training_step_ok tr st rollouts st2 ls hstep with ⟨-, kld, hkld, -, hma, -, htrain⟩
  refine ⟨cMaNext tr st rollouts, hma, ?_, rfl⟩
  rw [hmu, hlv] at hkld
  simp only [kld_loss, Except.ok.injEq] at hkld
  rw [htrain, ← hkld]
  simp [TVal.add, TVal.smul, TVal.sub]

/-- C4, witness: the statement instantiated at a concrete trainer and batch. -/
theorem claim4_variational_loss_witness :
    ∃ st2 ls, training_step trC fitInit rbC = Except.ok (st2, ls) ∧
      (trC.hgn.forward rbC).z_mean = some rbC ∧
      (trC.hgn.forward rbC).z_logvar = some rbC ∧
      ∃ ma, st2.C_ma = some ma ∧
        ls.train.val = kldVal rbC rbC
          + fitInit.langrange_multiplier
            * ((cOf trC rbC).val + (ma.val - (cOf trC rbC).val)) := by
  refine ⟨_, _, rfl, rfl, rfl, ?_⟩
  rcases claim4_variational_loss trC fitInit rbC _ _ rbC rbC rfl rfl rfl
    with ⟨ma, hma, htrain, -⟩
  exact ⟨ma, hma, htrain⟩

/-- C5 (the code contradicts the claim here): in deterministic mode
training_step raises an AttributeError on every batch, because line 148 of
train.py reads prediction.input where prediction is the reconstruction tensor
rather than the forward-pass result object; the geco state is indeed neither
read nor mutated, the step fails identically from any state. -/
theorem claim5_deterministic_crash (tr : HgnTrainer) (st st2 : TrainerState)
    (rollouts : Tensor) (hv : tr.variational = false) :
    training_step tr st rollouts = Except.error PyErr.attributeError ∧
    training_step tr st rollouts = training_step tr st2 rollouts := by
  have h1 : training_step tr st rollouts = Except.error PyErr.attributeError := by
    simp [training_step, hv]
  have h2 : training_step tr st2 rollouts = Except.error PyErr.attributeError := by
    simp [training_step, hv]
  exact ⟨h1, h1.trans h2.symm⟩

/-- C5, witness: the deterministic crash at a concrete trainer and batch. -/
theorem claim5_deterministic_crash_witness :
    trD.variational = false ∧
    training_step trD fitInit rbC = Except.error PyErr.attributeError :=
  ⟨rfl, (claim5_deterministic_crash trD fitInit fitInit rbC rfl).1⟩

/-- C6: a generative rollout of step count n >= 1 draws its latent sample from
the standard-normal sampler at shape
(1, encoder.out_mean.out_channels, imgHeight, imgWidth), records no per-step
energies, and its reconstructions have length n. -/
theorem claim6_generate (h : HGN) (randn : List Nat → Tensor) (n : Nat)
    (img : Nat × Nat) (hn : 1 ≤ n) :
    (h.get_random_sample randn n img).z_sample
      = some (randn [1, h.encoder.out_mean_out_channels, img.1, img.2]) ∧
    (h.get_random_sample randn n img).energies = [] ∧
    (h.get_random_sample randn n img).reconstructions.length = n := by
  refine ⟨?_, ?_, ?_⟩
  · simp only [HGN.get_random_sample, HgnResult.append_state,
      HgnResult.append_reconstruction, HgnResult.set_z]
    rw [(sampleLoop_fields h (n - 1) _ _ _).1]
  · simp only [HGN.get_random_sample, HgnResult.append_state,
      HgnResult.append_reconstruction, HgnResult.set_z]
    rw [(sampleLoop_len h (n - 1) _ _ _).2.2]
  · simp only [HGN.get_random_sample, HgnResult.append_state,
      HgnResult.append_reconstruction, HgnResult.set_z]
    rw [(sampleLoop_len h (n - 1) _ _ _).2.1]
    simp
    omega

/-- C6, witness: the statement instantiated at a concrete model with
step count 5 and image shape (32, 32). -/
theorem claim6_generate_witness :
    1 ≤ 5 ∧ ((hgnC.get_random_sample randnC 5 (32, 32)).energies = [] ∧
      (hgnC.get_random_sample randnC 5 (32, 32)).reconstructions.length = 5) :=
  ⟨by decide, (claim6_generate hgnC randnC 5 (32, 32) (by decide)).2⟩

/-- C7: a reconstruction-mode rollout with step count exactly 1 has exactly one
state, one reconstruction, and one energy, the energy being the detached
Hamiltonian evaluation at the single (hence final) state, and the result does
not depend on the integrator step capability at all. -/
theorem claim7_single_step (h : HGN) (rb : Tensor) (v : Bool) :
    (h.forward rb (some 1) v).states.length = 1 ∧
    (h.forward rb (some 1) v).reconstructions.length = 1 ∧
    (h.forward rb (some 1) v).energies
      = [Tensor.detach (h.hnn (h.transformer (h.encoder.toFun (h.concat_rgb rb) v).1).1
          (h.transformer (h.encoder.toFun (h.concat_rgb rb) v).1).2)] ∧
    (∀ istep, HGN.forward { h with integrator_step := istep } rb (some 1) v
        = h.forward rb (some 1) v) :=
  ⟨rfl, rfl, rfl, fun _ => rfl⟩

/-- C8, counterexample: loading from a directory that has encoder.pt but is
missing transformer.pt fails fatally, yet the encoder slot has already been
replaced by the loaded value, so the four slots are not left unchanged. -/
theorem claim8_partial_load_cex :
    (HGN.load hgn0 fsC dirC).2 = some PyErr.fileNotFound ∧
    (HGN.load hgn0 fsC dirC).1.encoder.out_mean_out_channels
      ≠ hgn0.encoder.out_mean_out_channels := by
  refine ⟨rfl, ?_⟩
  have h1 : (HGN.load hgn0 fsC dirC).1.encoder.out_mean_out_channels = 7 := rfl
  have h2 : hgn0.encoder.out_mean_out_channels = 4 := rfl
  rw [h1, h2]
  decide

/-- C8, amended: a missing file for any of the four names makes the load fail
fatally, but the load is sequential rather than atomic: the slots whose files
precede the first missing file in the order encoder, transformer, hamiltonian,
decoder are replaced by the loaded values and the remaining slots keep their
pre-call values; only when all four files are present does the load succeed,
replacing all four slots. -/
theorem claim8_load_sequential (h : HGN) (fs : FileSystem) (d : String) :
    ((fs d).bind ModelDir.encoder_pt = none →
      HGN.load h fs d = (h, some PyErr.fileNotFound)) ∧
    (∀ e, (fs d).bind ModelDir.encoder_pt = some e →
      (fs d).bind ModelDir.transformer_pt = none →
      HGN.load h fs d = ({ h with encoder := e }, some PyErr.fileNotFound)) ∧
    (∀ e t, (fs d).bind ModelDir.encoder_pt = some e →
      (fs d).bind ModelDir.transformer_pt = some t →
      (fs d).bind ModelDir.hamiltonian_pt = none →
      HGN.load h fs d = ({ h with encoder := e, transformer := t },
        some PyErr.fileNotFound)) ∧
    (∀ e t ha, (fs d).bind ModelDir.encoder_pt = some e →
      (fs d).bind ModelDir.transformer_pt = some t →
      (fs d).bind ModelDir.hamiltonian_pt = some ha →
      (fs d).bind ModelDir.decoder_pt = none →
      HGN.load h fs d = ({ h with encoder := e, transformer := t, hnn := ha },
        some PyErr.fileNotFound)) ∧
    (∀ e t ha de, (fs d).bind ModelDir.encoder_pt = some e →
      (fs d).bind ModelDir.transformer_pt = some t →
      (fs d).bind ModelDir.hamiltonian_pt = some ha →
      (fs d).bind ModelDir.decoder_pt = some de →
      HGN.load h fs d
        = ({ h with encoder := e, transformer := t, hnn := ha, decoder := de }, none)) := by
  refine ⟨?_, ?_, ?_, ?_, ?_⟩
  · intro h1
    simp [HGN.load, h1]
  · intro e h1 h2
    simp [HGN.load, h1, h2]
  · intro e t h1 h2 h3
    simp [HGN.load, h1, h2, h3]
  · intro e t ha h1 h2 h3 h4
    simp [HGN.load, h1, h2, h3, h4]
  · intro e t ha de h1 h2 h3 h4
    simp [HGN.load, h1, h2, h3, h4]

/-- C8, witness: the amended statement instantiated at the concrete file
system that has encoder.pt but is missing transformer.pt. -/
theorem claim8_load_sequential_witness :
    (fsC dirC).bind ModelDir.encoder_pt = some encNew ∧
    (fsC dirC).bind ModelDir.transformer_pt = none ∧
    HGN.load hgn0 fsC dirC = ({ hgn0 with encoder := encNew }, some PyErr.fileNotFound) :=
  ⟨rfl, rfl, (claim8_load_sequential hgn0 fsC dirC).2.1 encNew rfl rfl⟩

/-- C9: saving a model to a directory and loading from the same directory
succeeds and restores exactly the four function approximators, which therefore
produce identical outputs on the same input as before saving. -/
theorem claim9_save_load_roundtrip (h : HGN) (fs : FileSystem) (d : String) :
    HGN.load h (HGN.save h fs d) d = (h, none) ∧
    (∀ t b, (HGN.load h (HGN.save h fs d) d).1.encoder.toFun t b = h.encoder.toFun t b) ∧
    (∀ t, (HGN.load h (HGN.save h fs d) d).1.transformer t = h.transformer t) ∧
    (∀ q p, (HGN.load h (HGN.save h fs d) d).1.hnn q p = h.hnn q p) ∧
    (∀ t, (HGN.load h (HGN.save h fs d) d).1.decoder t = h.decoder t) := by
  have hd : HGN.save h fs d d
      = some ⟨some h.encoder, some h.transformer, some h.hnn, some h.decoder⟩ := by
    simp [HGN.save]
  have hmain : HGN.load h (HGN.save h fs d) d = (h, none) := by
    simp only [HGN.load, hd]
    rfl
  exact ⟨hmain, fun t b => by rw [hmain], fun t => by rw [hmain],
    fun q p => by rw [hmain], fun t => by rw [hmain]⟩

/-- C10: every generative rollout has a declared batch dimension of exactly 1,
whatever the model configuration and step count: the prediction batch shape is
(1, n, channels, imgHeight, imgWidth) and the latent sample is drawn at shape
(1, latentChannels, imgHeight, imgWidth), both with the hardcoded leading 1. -/
theorem claim10_generate_batch_dim (h : HGN) (randn : List Nat → Tensor) (n : Nat)
    (img : Nat × Nat) :
    (h.get_random_sample randn n img).batch_shape = [1, n, h.channels, img.1, img.2] ∧
    (h.get_random_sample randn n img).batch_shape.head? = some 1 ∧
    (h.get_random_sample randn n img).z_sample
      = some (randn [1, h.encoder.out_mean_out_channels, img.1, img.2]) := by
  have hb : (h.get_random_sample randn n img).batch_shape
      = [1, n, h.channels, img.1, img.2] := by
    simp only [HGN.get_random_sample, HgnResult.append_state,
      HgnResult.append_reconstruction, HgnResult.set_z]
    rw [(sampleLoop_fields h (n - 1) _ _ _).2]
  refine ⟨hb, by rw [hb]; rfl, ?_⟩
  simp only [HGN.get_random_sample, HgnResult.append_state,
    HgnResult.append_reconstruction, HgnResult.set_z]
  rw [(sampleLoop_fields h (n - 1) _ _ _).1]

end
